import Mathlib

/-!
Verification development for the EPUB image-splitting engine
(`src/epub_split_images.py`).  The Python core is shallowly embedded:
pure helpers become Lean functions, the mutable build state of
`build_new_epub` becomes an explicit `BuildState` record threaded through
the traversal, and the filesystem / image decoder become an explicit
environment record `Env`.
-/

namespace EpubSplit

/-- A parsed markup node, mirroring what BeautifulSoup exposes to the
traversal: an element carries a tag name, attributes and children, and a
bare string (`NavigableString`) carries its text.  Read-only during
segmentation. -/
inductive Node where
  | element (name : String) (attrs : List (String × String)) (children : List Node)
  | text (s : String)
deriving Repr

/-- The tag name of a node: `getattr(node, "name", None)` — elements have
their tag name, bare strings have `None`. -/
def Node.nameOf : Node → Option String
  | Node.element n _ _ => some n
  | Node.text _ => none

/-- First-match lookup in an attribute list, mirroring `node.get(attr)`. -/
def lookupAttr : List (String × String) → String → Option String
  | [], _ => none
  | (k, v) :: rest, a => if k = a then some v else lookupAttr rest a

/-- Attribute access `node.get(a)`: `None` on bare strings. -/
def Node.getAttr : Node → String → Option String
  | Node.element _ attrs _, a => lookupAttr attrs a
  | Node.text _, _ => none

/-- Characters stripped by `strip()` from both ends of a string. -/
def isWsChar (c : Char) : Bool :=
  c = ' ' ∨ c = '\t' ∨ c = '\n' ∨ c = '\r'

/-- `s.strip()`: drop whitespace from both ends. -/
def trimStr (s : String) : String :=
  String.mk (((s.data.dropWhile isWsChar).reverse.dropWhile isWsChar).reverse)

/-- ASCII lower-casing of one character; the file names and extensions
the engine lower-cases are ASCII. -/
def lowerChar (c : Char) : Char :=
  if 'A' ≤ c ∧ c ≤ 'Z' then Char.ofNat (c.toNat + 32) else c

/-- `s.lower()` on ASCII strings. -/
def lowerStr (s : String) : String :=
  String.mk (s.data.map lowerChar)

/-- Split a character list at every occurrence of `sep` (the accumulator
holds the current piece, reversed). -/
def splitCharAux (sep : Char) : List Char → List Char → List (List Char)
  | [], acc => [acc.reverse]
  | c :: rest, acc =>
      if c = sep then acc.reverse :: splitCharAux sep rest []
      else splitCharAux sep rest (c :: acc)

/-- Split a string at every occurrence of a separator character. -/
def splitChar (sep : Char) (s : String) : List String :=
  (splitCharAux sep s.data []).map String.mk

/-- `s.endswith(t)`. -/
def endsWithStr (s t : String) : Bool :=
  if s.data.length < t.data.length then false
  else decide (String.mk (s.data.drop (s.data.length - t.data.length)) = t)

mutual

/-- All descendants of one node (the node itself excluded), in document
order. -/
def Node.descendants : Node → List Node
  | Node.element _ _ cs => descendantsList cs
  | Node.text _ => []

/-- All descendants of a list of sibling nodes, in document order, each
node followed by its own descendants.  Applied to the children of `body`
this is exactly the sequence produced by `body.descendants` in the main
traversal loop. -/
def descendantsList : List Node → List Node
  | [] => []
  | n :: rest => n :: (Node.descendants n ++ descendantsList rest)

end

mutual

/-- Whether any string in the subtree has non-whitespace content,
mirroring `get_text(strip=True)` being non-empty (each string is
stripped individually and the stripped pieces concatenated). -/
def Node.hasText : Node → Bool
  | Node.element _ _ cs => hasTextList cs
  | Node.text s => trimStr s ≠ ""

/-- `Node.hasText` over a list of sibling subtrees. -/
def hasTextList : List Node → Bool
  | [] => false
  | n :: rest => Node.hasText n || hasTextList rest

end

mutual

/-- Remove every `img` element (at any depth) below a node, mirroring
`for im in clone.find_all("img"): im.decompose()` applied to the clone
of a non-`img` node. -/
def stripImgsNode : Node → Node
  | Node.element n a cs => Node.element n a (stripImgsList cs)
  | Node.text s => Node.text s

/-- Remove every `img` element (at any depth) from a list of sibling
subtrees. -/
def stripImgsList : List Node → List Node
  | [] => []
  | n :: rest =>
      if Node.nameOf n = some "img" then stripImgsList rest
      else stripImgsNode n :: stripImgsList rest

end

mutual

/-- Number of bare-string nodes equal to `needle` in the subtree of one
node; used to count how often a given piece of text occurs in a rendered
fragment. -/
def Node.countText (needle : String) : Node → Nat
  | Node.element _ _ cs => countTextList needle cs
  | Node.text s => if s = needle then 1 else 0

/-- `Node.countText` summed over a list of sibling subtrees. -/
def countTextList (needle : String) : List Node → Nat
  | [] => 0
  | n :: rest => Node.countText needle n + countTextList needle rest

end

/-- `extract_text_fragment(nodes)`: walk the buffered nodes, skip nodes
whose own tag is `img`, `script` or `style`, clone each remaining node,
decompose every nested `img` in the clone, and keep the clone only if its
stripped text is non-empty.  The returned list of kept clones models the
children of the fragment `<div>`; the fragment string that the Python
code joins together is non-empty (and has non-whitespace text) exactly
when this list is non-empty, because every kept clone contains
non-whitespace text. -/
def extract_text_fragment (nodes : List Node) : List Node :=
  nodes.filterMap fun node =>
    match Node.nameOf node with
    | some n =>
        if n = "img" ∨ n = "script" ∨ n = "style" then none
        else
          let stripped := stripImgsNode node
          if Node.hasText stripped then some stripped else none
    | none =>
        let stripped := stripImgsNode node
        if Node.hasText stripped then some stripped else none

/-- Final path component: part after the last `/`. -/
def pathBasename (p : String) : String :=
  (splitChar '/' p).getLastD ""

/-- `Path(p).suffix`: the extension of the final component including the
dot, `""` when there is none (a lone leading dot, as in `.bashrc`, does
not count as an extension). -/
def pathSuffix (p : String) : String :=
  let b := pathBasename p
  match splitChar '.' b with
  | [] => ""
  | [_] => ""
  | first :: rest =>
      if first = "" ∧ rest.length = 1 then ""
      else "." ++ rest.getLastD ""

/-- `Path(p).stem`: the final component without its extension. -/
def pathStem (p : String) : String :=
  let b := pathBasename p
  String.mk (b.data.take (b.data.length - (pathSuffix p).data.length))

/-- `{n:04d}`: decimal rendering zero-padded to at least four digits. -/
def pad4 (n : Nat) : String :=
  if n < 10 then "000" ++ toString n
  else if n < 100 then "00" ++ toString n
  else if n < 1000 then "0" ++ toString n
  else toString n

/-- `guess_mime`: media type from the lower-cased extension. -/
def guess_mime (p : String) : String :=
  let ext := lowerStr (pathSuffix p)
  if ext = ".xhtml" ∨ ext = ".html" ∨ ext = ".htm" then "application/xhtml+xml"
  else if ext = ".css" then "text/css"
  else if ext = ".jpg" ∨ ext = ".jpeg" then "image/jpeg"
  else if ext = ".png" then "image/png"
  else if ext = ".gif" then "image/gif"
  else if ext = ".svg" then "image/svg+xml"
  else if ext = ".ttf" then "font/ttf"
  else if ext = ".otf" then "font/otf"
  else if ext = ".woff" then "font/woff"
  else if ext = ".woff2" then "font/woff2"
  else "application/octet-stream"

/-- One step of `slugify`'s whitespace collapsing: runs of whitespace in
the (already trimmed) text become a single `-`. -/
def collapseWs : List Char → Bool → List Char
  | [], _ => []
  | c :: rest, prevWs =>
      if isWsChar c then
        if prevWs then collapseWs rest true else '-' :: collapseWs rest true
      else c :: collapseWs rest false

/-- A character admitted by `slugify`'s character class
`[A-Za-z0-9_\-.]`. -/
def slugChar (c : Char) : Bool :=
  ('A' ≤ c ∧ c ≤ 'Z') ∨ ('a' ≤ c ∧ c ≤ 'z') ∨ ('0' ≤ c ∧ c ≤ '9') ∨
    c = '_' ∨ c = '-' ∨ c = '.'

/-- `slugify`: trim, collapse whitespace runs to `-`, drop every character
outside `A-Za-z0-9_-.`, fall back to `untitled` when nothing is left. -/
def slugify (text : String) : String :=
  let collapsed := collapseWs (trimStr text).data false
  let cleaned := String.mk (collapsed.filter slugChar)
  if cleaned = "" then "untitled" else cleaned

/-- Join a directory and a relative reference, modelling `dir / ref`
(`.resolve()` is identity on the already-absolute joined paths the
engine produces). -/
def joinPath (dir file : String) : String := dir ++ "/" ++ file

/-- Engine parameters of `build_new_epub`. -/
structure Config where
  images_only : Bool
  min_w : Nat
  min_h : Nat

/-- The external world: file existence, the image decoder (`None` models
`UnidentifiedImageError`/`OSError`, i.e. dimensions unobtainable), and
raw file bytes. -/
structure Env where
  fileExists : String → Bool
  dims : String → Option (Nat × Nat)
  readBytes : String → List Nat

/-- The structured content of one generated page file, standing for the
XHTML produced by `PAGE_TEMPLATE` / `TEXT_PAGE_TEMPLATE` (the fixed
wrapper markup and css links are not modelled; the varying parts are). -/
inductive PageContent where
  | image (title : String) (img_href : String) (alt : String)
  | text (title : String) (fragment : List Node)
deriving Repr

/-- Whether a generated page is an image-page. -/
def PageContent.isImagePage : PageContent → Bool
  | PageContent.image _ _ _ => true
  | PageContent.text _ _ => false

/-- The mutable state of `build_new_epub`, made explicit: the three
output accumulators (`img_manifest`, `page_manifest`, `navpoints`), the
three counters, the deduplication map `copied_images` (an association
list in insertion order), and the files written under
`OEBPS/Images` (name, bytes) and `OEBPS/Text` (name, content), plus the
diagnostics printed for skipped placeholder images. -/
structure BuildState where
  img_manifest : List (String × String × String)
  page_manifest : List (String × String × String)
  navpoints : List (String × String)
  img_id_counter : Nat
  page_id_counter : Nat
  text_seq_counter : Nat
  copied_images : List (String × String)
  images_dir : List (String × List Nat)
  text_dir : List (String × PageContent)
  diagnostics : List String
deriving Repr

/-- State at the top of `build_new_epub`: all counters start at 1, all
accumulators empty. -/
def initBuildState : BuildState :=
  { img_manifest := [], page_manifest := [], navpoints := [],
    img_id_counter := 1, page_id_counter := 1, text_seq_counter := 1,
    copied_images := [], images_dir := [], text_dir := [], diagnostics := [] }

/-- First-match association-list lookup for `copied_images`, mirroring
the Python dict keyed by the resolved absolute path. -/
def lookupCopied : List (String × String) → String → Option String
  | [], _ => none
  | (k, v) :: rest, key => if k = key then some v else lookupCopied rest key

/-- `copy_image(src_path)`: decode for dimensions; if both dimensions are
obtainable and either is below the configured minimum, reject (returning
`None`) and print a diagnostic; if decoding fails the check is skipped.
On acceptance the file is copied byte-for-byte to
`img{counter:04d}{suffix.lower()}`, the counter is incremented, and a
manifest entry `(f"img{img_id_counter}", f"Images/{name}", mime)` is
appended — note the manifest id uses the counter value after the
increment.  The rejection test of `copy_image` is split out here: an
image is rejected exactly when its dimensions are obtainable and either
one is below the configured minimum; an undecodable image
(`UnidentifiedImageError`/`OSError`) is never rejected. -/
def rejectImage (cfg : Config) (env : Env) (src_path : String) : Bool :=
  match env.dims src_path with
  | some (w, h) => w < cfg.min_w || h < cfg.min_h
  | none => false

/-- The diagnostic line printed for a rejected placeholder image. -/
def skipDiagnostic (env : Env) (src_path : String) : String :=
  match env.dims src_path with
  | some (w, h) =>
      "    [skip] Platzhalter-Bild ignoriert (" ++ toString w ++ "x" ++
        toString h ++ "): " ++ pathBasename src_path
  | none => ""

def copy_image (cfg : Config) (env : Env) (st : BuildState) (src_path : String) :
    Option String × BuildState :=
  if rejectImage cfg env src_path then
    (none, { st with diagnostics := st.diagnostics ++ [skipDiagnostic env src_path] })
  else
    let name := "img" ++ pad4 st.img_id_counter ++ lowerStr (pathSuffix src_path)
    let newCounter := st.img_id_counter + 1
    (some name,
      { st with
        img_id_counter := newCounter,
        images_dir := st.images_dir ++ [(name, env.readBytes src_path)],
        img_manifest := st.img_manifest ++
          [("img" ++ toString newCounter, "Images/" ++ name,
            guess_mime ("OEBPS/Images/" ++ name))] })

/-- `write_image_page(newname, alt_text)`: write one image page under
`Text/imgpage{page_id:04d}.xhtml`, append its manifest entry and its
navigation point, and bump the page counter. -/
def write_image_page (st : BuildState) (newname alt_text : String) : BuildState :=
  let title := pathStem newname
  let page_name := "imgpage" ++ pad4 st.page_id_counter ++ ".xhtml"
  { st with
    page_id_counter := st.page_id_counter + 1,
    text_dir := st.text_dir ++ [(page_name, PageContent.image title newname alt_text)],
    page_manifest := st.page_manifest ++
      [(pathStem page_name, "Text/" ++ page_name, "application/xhtml+xml")],
    navpoints := st.navpoints ++ [(title, "Text/" ++ page_name)] }

/-- `write_text_page(fragment_html, suggest_title)`: no-op when
`images_only` is set or the fragment is empty (the joined fragment string
is empty or whitespace-only exactly when the kept-clone list is empty);
otherwise write one text page under `Text/textpage{page_id:04d}.xhtml`,
titled `"{suggest_title or 'Text'} {text_seq_counter}"`, appending its
manifest entry and navigation point and bumping both counters. -/
def write_text_page (cfg : Config) (st : BuildState) (fragment : List Node)
    (suggest_title : String) : BuildState :=
  if cfg.images_only then st
  else if fragment.isEmpty then st
  else
    let title := (if suggest_title = "" then "Text" else suggest_title) ++ " " ++
      toString st.text_seq_counter
    let page_name := "textpage" ++ pad4 st.page_id_counter ++ ".xhtml"
    { st with
      text_seq_counter := st.text_seq_counter + 1,
      page_id_counter := st.page_id_counter + 1,
      text_dir := st.text_dir ++ [(page_name, PageContent.text title fragment)],
      page_manifest := st.page_manifest ++
        [(pathStem page_name, "Text/" ++ page_name, "application/xhtml+xml")],
      navpoints := st.navpoints ++ [(title, "Text/" ++ page_name)] }

/-- `flush_text()`: when text pages are enabled and the pending buffer is
non-empty, extract the fragment, write a text page and clear the buffer;
otherwise leave state and buffer untouched. -/
def flush_text (cfg : Config) (st : BuildState) (pending : List Node)
    (base_title : String) : BuildState × List Node :=
  if !cfg.images_only && !pending.isEmpty then
    (write_text_page cfg st (extract_text_fragment pending) base_title, [])
  else (st, pending)

/-- `resolve` of an image `src`: first relative to the containing
document's directory, then relative to the package document's directory;
`None` when both misses. -/
def resolveImageSrc (env : Env) (docDir opfDir : String) (src : String) : Option String :=
  let p := joinPath docDir src
  if env.fileExists p then some p
  else
    let q := joinPath opfDir src
    if env.fileExists q then some q else none

/-- The alt label of an image page:
`node.get("alt") or Path(newname).stem`. -/
def altText (node : Node) (newname : String) : String :=
  match Node.getAttr node "alt" with
  | some a => if a = "" then pathStem newname else a
  | none => pathStem newname

/-- The `img` branch of the traversal loop after the flush: read `src`
(a missing or empty value skips the node), resolve it, consult the
deduplication map, copy on a first occurrence (a rejected copy skips the
node), and emit one image page referencing the (possibly reused) copied
name. -/
def handleImg (cfg : Config) (env : Env) (docDir opfDir : String)
    (st : BuildState) (node : Node) : BuildState :=
  match Node.getAttr node "src" with
  | none => st
  | some src =>
    if src = "" then st
    else
      match resolveImageSrc env docDir opfDir src with
      | none => st
      | some src_path =>
        match lookupCopied st.copied_images src_path with
        | some newname => write_image_page st newname (altText node newname)
        | none =>
          match copy_image cfg env st src_path with
          | (none, st1) => st1
          | (some newname, st1) =>
            let st2 := { st1 with copied_images := st1.copied_images ++ [(src_path, newname)] }
            write_image_page st2 newname (altText node newname)

/-- One iteration of `for node in body.descendants`: an `img` node first
flushes the pending buffer and is then handled by `handleImg`; every
other node is appended (with its full subtree) to the pending buffer. -/
def processNode (cfg : Config) (env : Env) (docDir opfDir base_title : String)
    (acc : BuildState × List Node) (node : Node) : BuildState × List Node :=
  if Node.nameOf node = some "img" then
    let fl := flush_text cfg acc.1 acc.2 base_title
    (handleImg cfg env docDir opfDir fl.1 node, fl.2)
  else
    (acc.1, acc.2 ++ [node])

/-- One eligible input document: its candidate href, its resolved path
`(opf_dir / href).resolve()`, that path's parent directory, and the
children of the parsed `body`. -/
structure Doc where
  href : String
  path : String
  dir : String
  body : List Node

/-- Processing of one candidate document: skip it when the file is
absent, otherwise traverse all descendants of `body`, and flush any
remaining pending buffer at the end. -/
def processDoc (cfg : Config) (env : Env) (opfDir : String)
    (st : BuildState) (doc : Doc) : BuildState :=
  if env.fileExists doc.path then
    let base_title := pathStem doc.href
    let r := (descendantsList doc.body).foldl
      (processNode cfg env doc.dir opfDir base_title) (st, [])
    (flush_text cfg r.1 r.2 base_title).1
  else st

/-- The segmentation phase of `build_new_epub` over the candidate
documents, failing with the `RuntimeError` message when no page at all
was produced. -/
def build_new_epub (cfg : Config) (env : Env) (opfDir : String)
    (docs : List Doc) : Except String BuildState :=
  let st := docs.foldl (processDoc cfg env opfDir) initBuildState
  if st.page_manifest.isEmpty then
    Except.error "Keine Seiten entstanden – weder Bilder noch Text gefunden."
  else Except.ok st

/-- One `navPoint` of the generated `toc.ncx`: id `np{i}`, `playOrder`,
label and content `src`. -/
structure NavPoint where
  id : String
  playOrder : Nat
  label : String
  src : String
deriving Repr

/-- The `navMap` loop `for i, (label, src) in enumerate(navpoints, 1)`,
with the running index made explicit. -/
def buildNavMapAux (k : Nat) : List (String × String) → List NavPoint
  | [] => []
  | (label, src) :: rest =>
      { id := "np" ++ toString k, playOrder := k, label := label, src := src } ::
        buildNavMapAux (k + 1) rest

/-- The navigation map written to `toc.ncx`, one `navPoint` per
accumulated navpoint, enumerated from 1. -/
def buildNavMap (navpoints : List (String × String)) : List NavPoint :=
  buildNavMapAux 1 navpoints

/-- `next((v for k, v in md["dc"] if k == "identifier" and v), None)`:
the first `dc` metadata entry that is an identifier with a truthy
(non-empty) value. -/
def existing_identifier (md_dc : List (String × String)) : Option String :=
  md_dc.findSome? fun kv =>
    if kv.1 = "identifier" ∧ kv.2 ≠ "" then some kv.2 else none

/-- `book_uid = existing_identifier or f"urn:uuid:{uuid4()}"`; the random
uuid is passed in explicitly. -/
def bookUid (md_dc : List (String × String)) (freshUuid : String) : String :=
  match existing_identifier md_dc with
  | some v => v
  | none => "urn:uuid:" ++ freshUuid

/-- The generated `toc.ncx` document: the `dtb:uid` head meta, the
`dtb:depth` meta, the `docTitle` text and the `navMap`. -/
structure NcxDoc where
  dtb_uid : String
  dtb_depth : String
  docTitle : String
  navMap : List NavPoint
deriving Repr

/-- Construction of `toc.ncx`: `dtb:uid` is set to the book uid, the
title falls back to `Bilder`, the navMap enumerates the navpoints. -/
def build_ncx (md_dc : List (String × String)) (buid : String)
    (navpoints : List (String × String)) : NcxDoc :=
  { dtb_uid := buid,
    dtb_depth := "1",
    docTitle := (md_dc.findSome? fun kv =>
      if kv.1 = "title" then some kv.2 else none).getD "Bilder",
    navMap := buildNavMap navpoints }

/-- The generated `content.opf` document: the `unique-identifier`
attribute, the copied `dc` entries, the canonical identifier element
(carrying `id="BookId"`), the copied simple `meta` entries, the manifest
triples (id, href, media-type), the spine's `toc` attribute and the spine
idrefs. -/
structure OpfDoc where
  unique_identifier_attr : String
  dc_entries : List (String × String)
  canonical_identifier : String
  meta_entries : List (String × String)
  manifest : List (String × String × String)
  spine_toc : String
  spine : List String
deriving Repr

/-- Construction of `content.opf`: copy non-empty `dc` entries except
identifiers, insert the canonical identifier, copy `meta` entries with
truthy name and content, build the manifest (ncx, stylesheets, pages,
images — image ids slugified), and one spine itemref per page in
`page_manifest` order. -/
def build_opf (md_dc md_meta : List (String × String)) (buid : String)
    (css_files : List String)
    (page_manifest img_manifest : List (String × String × String)) : OpfDoc :=
  { unique_identifier_attr := "BookId",
    dc_entries := md_dc.filter fun kv => kv.2 ≠ "" ∧ kv.1 ≠ "identifier",
    canonical_identifier := buid,
    meta_entries := md_meta.filter fun kv => kv.1 ≠ "" ∧ kv.2 ≠ "",
    manifest :=
      ("ncx", "toc.ncx", "application/x-dtbncx+xml") ::
        (css_files.map fun css => (slugify (pathStem css), css, "text/css")) ++
        page_manifest ++
        (img_manifest.map fun it => (slugify it.1, it.2.1, it.2.2)),
    spine_toc := "ncx",
    spine := page_manifest.map fun p => p.1 }

/-- The two generated package documents of one run. -/
structure OutputDocs where
  ncx : NcxDoc
  opf : OpfDoc

/-- Assembly of `toc.ncx` and `content.opf` from the final build state:
the book uid is computed once and written into both documents. -/
def assemble_output (md_dc md_meta : List (String × String)) (freshUuid : String)
    (css_files : List String) (st : BuildState) : OutputDocs :=
  let buid := bookUid md_dc freshUuid
  { ncx := build_ncx md_dc buid st.navpoints,
    opf := build_opf md_dc md_meta buid css_files st.page_manifest st.img_manifest }

/-- A manifest item as parsed from the source package. -/
structure ManifestItem where
  id : String
  href : String
  media_type : String
  properties : String
deriving Repr

/-- First-match lookup of a manifest item by href. -/
def lookupItem : List (String × ManifestItem) → String → Option ManifestItem
  | [], _ => none
  | (k, v) :: rest, key => if k = key then some v else lookupItem rest key

/-- `h.lower().endswith((".xhtml", ".html", ".htm"))`. -/
def hasHtmlExt (h : String) : Bool :=
  endsWithStr (lowerStr h) ".xhtml" || endsWithStr (lowerStr h) ".html" ||
    endsWithStr (lowerStr h) ".htm"

/-- Candidate selection as the code performs it: spine hrefs whose
lower-cased value ends in a markup file extension; when none qualifies,
every manifest item (in iteration order) whose media type is
`application/xhtml+xml` or `text/html`. -/
def html_candidates (spine_hrefs : List String)
    (items_by_href : List (String × ManifestItem)) : List String :=
  let cands := spine_hrefs.filter fun h => h ≠ "" && hasHtmlExt h
  if cands.isEmpty then
    (items_by_href.filter fun it =>
      it.2.media_type = "application/xhtml+xml" || it.2.media_type = "text/html").map
      fun it => it.1
  else cands

/-- Modelled from the spec claim's words, for comparison with
`html_candidates`: the spine entries whose MEDIA TYPE is markup, in spine
order, with the same manifest-based fallback.  (The spine is given as
hrefs; an entry's media type is looked up in the manifest.) -/
def html_candidates_by_media_type (spine_hrefs : List String)
    (items_by_href : List (String × ManifestItem)) : List String :=
  let isMarkup : String → Bool := fun h =>
    match lookupItem items_by_href h with
    | some it => it.media_type = "application/xhtml+xml" || it.media_type = "text/html"
    | none => false
  let cands := spine_hrefs.filter isMarkup
  if cands.isEmpty then
    (items_by_href.filter fun it =>
      it.2.media_type = "application/xhtml+xml" || it.2.media_type = "text/html").map
      fun it => it.1
  else cands

/-- Compression mode of one zip entry. -/
inductive CompressType where
  | stored
  | deflated
deriving Repr, DecidableEq, BEq

/-- One entry of the written archive. -/
structure ZipEntry where
  name : String
  compress : CompressType
deriving Repr, DecidableEq, BEq

/-- The archive-writing loop: `zipfile.ZipFile(out_path, "w")` is opened
without a `compression` argument, so the file's default compression is
`ZIP_STORED`; the `mimetype` entry is written first via
`writestr(..., compress_type=zipfile.ZIP_STORED)`, and every other file
collected from the build tree is written via `z.write(path, rel)` with no
`compress_type`, which inherits the archive default (`ZIP_STORED`). -/
def writeEpubZip (files : List String) : List ZipEntry :=
  let defaultCompress := CompressType.stored
  { name := "mimetype", compress := CompressType.stored } ::
    (files.filter fun rel => rel ≠ "mimetype").map
      fun rel => { name := rel, compress := defaultCompress }

/-- Number of image-pages among the generated page files. -/
def imagePageCount (st : BuildState) : Nat :=
  st.text_dir.countP fun e => e.2.isImagePage

/-- How many bare-string occurrences of `needle` a generated page
contains in its varying content. -/
def PageContent.textOccurrences (needle : String) : PageContent → Nat
  | PageContent.image _ _ _ => 0
  | PageContent.text _ frag => countTextList needle frag

/-- Example configuration: text pages enabled, the default 2x2
placeholder thresholds. -/
def exCfg : Config := { images_only := false, min_w := 2, min_h := 2 }

/-- Example environment: the document file and `OEBPS/x.png` exist, and
`x.png` decodes to 10x10. -/
def exEnv10 : Env :=
  { fileExists := fun p => p = "OEBPS/x.png" || p = "OEBPS/a.xhtml",
    dims := fun p => if p = "OEBPS/x.png" then some (10, 10) else none,
    readBytes := fun _ => [137, 80, 78, 71] }

/-- Same environment but `x.png` decodes to 1x1 (a placeholder). -/
def exEnv1 : Env :=
  { exEnv10 with dims := fun p => if p = "OEBPS/x.png" then some (1, 1) else none }

/-- Body of the scenario document `a.xhtml`:
`<p>intro</p><img src="x.png" alt="pic"/><p>outro</p>`. -/
def exBody : List Node :=
  [ Node.element "p" [] [Node.text "intro"],
    Node.element "img" [("src", "x.png"), ("alt", "pic")] [],
    Node.element "p" [] [Node.text "outro"] ]

/-- The same document with the `alt` attribute absent:
`<p>intro</p><img src="x.png"/><p>outro</p>`. -/
def exBodyNoAlt : List Node :=
  [ Node.element "p" [] [Node.text "intro"],
    Node.element "img" [("src", "x.png")] [],
    Node.element "p" [] [Node.text "outro"] ]

/-- The scenario document as a candidate input. -/
def exDoc : Doc :=
  { href := "a.xhtml", path := "OEBPS/a.xhtml", dir := "OEBPS", body := exBody }

/-- The alt-less scenario document. -/
def exDocNoAlt : Doc :=
  { href := "a.xhtml", path := "OEBPS/a.xhtml", dir := "OEBPS", body := exBodyNoAlt }

/-- The final build state of the 10x10 scenario run. -/
def exRunState : BuildState :=
  match build_new_epub exCfg exEnv10 "OEBPS" [exDoc] with
  | Except.ok st => st
  | Except.error _ => initBuildState

/-- The final build state of the 1x1 scenario run (the placeholder image
is rejected). -/
def exRunState1 : BuildState :=
  match build_new_epub exCfg exEnv1 "OEBPS" [exDocNoAlt] with
  | Except.ok st => st
  | Except.error _ => initBuildState

/-- Manifest for the C9 counterexample: two manifest items, both of
markup media type, one with a non-markup file extension; the spine lists
both. -/
def c9items : List (String × ManifestItem) :=
  [ ("a.xml",
      { id := "a", href := "a.xml", media_type := "application/xhtml+xml",
        properties := "" }),
    ("b.xhtml",
      { id := "b", href := "b.xhtml", media_type := "application/xhtml+xml",
        properties := "" }) ]

/-- The synchronization invariant between the three page sequences: the
navpoint targets, the page-manifest hrefs and the written page files
list the same pages in the same order. -/
def pagesSync (st : BuildState) : Prop :=
  st.navpoints.map Prod.snd = st.page_manifest.map (fun p => p.2.1) ∧
  st.page_manifest.map (fun p => p.2.1) = st.text_dir.map (fun e => "Text/" ++ e.1)

theorem pagesSync_init : pagesSync initBuildState := ⟨rfl, rfl⟩

theorem pagesSync_write_image_page (st : BuildState) (n a : String)
    (h : pagesSync st) : pagesSync (write_image_page st n a) := by
  obtain ⟨h1, h2⟩ := h
  unfold write_image_page pagesSync
  simp [h1, h2]

theorem pagesSync_write_text_page (cfg : Config) (st : BuildState)
    (frag : List Node) (t : String) (h : pagesSync st) :
    pagesSync (write_text_page cfg st frag t) := by
  obtain ⟨h1, h2⟩ := h
  unfold write_text_page
  split
  · exact ⟨h1, h2⟩
  · split
    · exact ⟨h1, h2⟩
    · unfold pagesSync
      simp [h1, h2]

theorem copy_image_pagesSync (cfg : Config) (env : Env) (st : BuildState)
    (p : String) (r : Option String) (st' : BuildState)
    (heq : copy_image cfg env st p = (r, st')) (h : pagesSync st) :
    pagesSync st' := by
  obtain ⟨h1, h2⟩ := h
  unfold copy_image at heq
  split at heq <;> (cases heq; exact ⟨h1, h2⟩)

theorem pagesSync_flush_text (cfg : Config) (st : BuildState)
    (pending : List Node) (bt : String) (h : pagesSync st) :
    pagesSync (flush_text cfg st pending bt).1 := by
  unfold flush_text
  split
  · exact pagesSync_write_text_page cfg st _ bt h
  · exact h

theorem pagesSync_handleImg (cfg : Config) (env : Env) (d o : String)
    (st : BuildState) (node : Node) (h : pagesSync st) :
    pagesSync (handleImg cfg env d o st node) := by
  unfold handleImg
  split
  · exact h
  · split
    · exact h
    · split
      · exact h
      · split
        · exact pagesSync_write_image_page _ _ _ h
        · split
          · rename_i st1 heq
            exact copy_image_pagesSync cfg env st _ _ _ heq h
          · rename_i nn st1 heq
            have hc := copy_image_pagesSync cfg env st _ _ _ heq h
            exact pagesSync_write_image_page _ _ _ hc

theorem pagesSync_processNode (cfg : Config) (env : Env) (d o bt : String)
    (acc : BuildState × List Node) (node : Node) (h : pagesSync acc.1) :
    pagesSync (processNode cfg env d o bt acc node).1 := by
  unfold processNode
  split
  · exact pagesSync_handleImg cfg env d o _ node
      (pagesSync_flush_text cfg acc.1 acc.2 bt h)
  · exact h

theorem pagesSync_foldl_nodes (cfg : Config) (env : Env) (d o bt : String)
    (nodes : List Node) (acc : BuildState × List Node) (h : pagesSync acc.1) :
    pagesSync (nodes.foldl (processNode cfg env d o bt) acc).1 := by
  induction nodes generalizing acc with
  | nil => exact h
  | cons n rest ih =>
      exact ih _ (pagesSync_processNode cfg env d o bt acc n h)

theorem pagesSync_processDoc (cfg : Config) (env : Env) (o : String)
    (st : BuildState) (doc : Doc) (h : pagesSync st) :
    pagesSync (processDoc cfg env o st doc) := by
  unfold processDoc
  split
  · exact pagesSync_flush_text cfg _ _ _
      (pagesSync_foldl_nodes cfg env doc.dir o (pathStem doc.href)
        (descendantsList doc.body) (st, []) h)
  · exact h

theorem pagesSync_foldl_docs (cfg : Config) (env : Env) (o : String)
    (docs : List Doc) (st : BuildState) (h : pagesSync st) :
    pagesSync (docs.foldl (processDoc cfg env o) st) := by
  induction docs generalizing st with
  | nil => exact h
  | cons d rest ih => exact ih _ (pagesSync_processDoc cfg env o st d h)

theorem buildNavMapAux_src (l : List (String × String)) (k : Nat) :
    (buildNavMapAux k l).map NavPoint.src = l.map Prod.snd := by
  induction l generalizing k with
  | nil => rfl
  | cons x rest ih =>
      cases x with
      | mk label src => simp [buildNavMapAux, ih]

theorem buildNavMapAux_playOrder (l : List (String × String)) :
    ∀ (k i : Nat) (hi : i < (buildNavMapAux k l).length),
      ((buildNavMapAux k l).get ⟨i, hi⟩).playOrder = k + i := by
  induction l with
  | nil => intro k i hi; simp [buildNavMapAux] at hi
  | cons x rest ih =>
      intro k i hi
      cases x with
      | mk label src =>
          cases i with
          | zero => rfl
          | succ j =>
              have hj : j < (buildNavMapAux (k + 1) rest).length := by
                simpa [buildNavMapAux] using hi
              have := ih (k + 1) j hj
              simpa [buildNavMapAux, Nat.add_assoc, Nat.add_comm 1 j] using this

/-- C1: for every run that produces an output package, the spine's
itemrefs are the created pages' manifest ids in creation order, the
navigation map's entries target the same pages' hrefs in the same order
(which is also the order in which the page files were written), and each
navPoint's playOrder is its 1-based position in that sequence. -/
theorem spine_nav_page_order_identical
    (cfg : Config) (env : Env) (opfDir : String) (docs : List Doc)
    (st : BuildState) (md_dc md_meta : List (String × String))
    (freshUuid : String) (css : List String)
    (h : build_new_epub cfg env opfDir docs = Except.ok st) :
    (assemble_output md_dc md_meta freshUuid css st).opf.spine
        = st.page_manifest.map (fun p => p.1) ∧
    ((assemble_output md_dc md_meta freshUuid css st).ncx.navMap.map NavPoint.src)
        = st.page_manifest.map (fun p => p.2.1) ∧
    st.page_manifest.map (fun p => p.2.1)
        = st.text_dir.map (fun e => "Text/" ++ e.1) ∧
    ∀ i (hi : i < (assemble_output md_dc md_meta freshUuid css st).ncx.navMap.length),
      ((assemble_output md_dc md_meta freshUuid css st).ncx.navMap.get ⟨i, hi⟩).playOrder
        = i + 1 := by
  have hst : st = docs.foldl (processDoc cfg env opfDir) initBuildState := by
    simp only [build_new_epub] at h
    split at h
    · cases h
    · injection h with h'
      exact h'.symm
  have hsync : pagesSync st := by
    rw [hst]
    exact pagesSync_foldl_docs cfg env opfDir docs initBuildState pagesSync_init
  refine ⟨rfl, ?_, hsync.2, ?_⟩
  · show (buildNavMap st.navpoints).map NavPoint.src = _
    rw [buildNavMap, buildNavMapAux_src]
    exact hsync.1
  · intro i hi
    show ((buildNavMapAux 1 st.navpoints).get ⟨i, hi⟩).playOrder = i + 1
    rw [buildNavMapAux_playOrder st.navpoints 1 i hi]
    exact Nat.add_comm 1 i

/-- Witness for C1 on the concrete 10x10 scenario run. -/
theorem spine_nav_page_order_identical_witness :
    ((assemble_output [] [] "u" [] exRunState).ncx.navMap.map NavPoint.src)
        = exRunState.page_manifest.map (fun p => p.2.1) ∧
    exRunState.page_manifest.map (fun p => p.2.1)
        = exRunState.text_dir.map (fun e => "Text/" ++ e.1) :=
  have h := spine_nav_page_order_identical exCfg exEnv10 "OEBPS" [exDoc]
    exRunState [] [] "u" [] (by rfl)
  ⟨h.2.1, h.2.2.1⟩

theorem rejectImage_iff (cfg : Config) (env : Env) (p : String) :
    rejectImage cfg env p = true ↔
      ∃ w h, env.dims p = some (w, h) ∧ (w < cfg.min_w ∨ h < cfg.min_h) := by
  unfold rejectImage
  rcases hd : env.dims p with _ | ⟨w, h⟩
  · simp
  · simp only [hd, Option.some.injEq, Prod.mk.injEq, Bool.or_eq_true,
      decide_eq_true_eq]
    constructor
    · intro hh
      exact ⟨w, h, ⟨rfl, rfl⟩, hh⟩
    · rintro ⟨w1, h1, ⟨rfl, rfl⟩, hlt⟩
      exact hlt

theorem copy_image_fst_none_iff (cfg : Config) (env : Env) (st : BuildState)
    (p : String) :
    (copy_image cfg env st p).1 = none ↔ rejectImage cfg env p = true := by
  unfold copy_image
  split <;> simp_all

theorem copy_image_some (cfg : Config) (env : Env) (st : BuildState)
    (p : String) (h : rejectImage cfg env p = false) :
    copy_image cfg env st p =
      (some ("img" ++ pad4 st.img_id_counter ++ lowerStr (pathSuffix p)),
       { st with
         img_id_counter := st.img_id_counter + 1,
         images_dir := st.images_dir ++
           [("img" ++ pad4 st.img_id_counter ++ lowerStr (pathSuffix p),
             env.readBytes p)],
         img_manifest := st.img_manifest ++
           [("img" ++ toString (st.img_id_counter + 1),
             "Images/" ++ ("img" ++ pad4 st.img_id_counter ++ lowerStr (pathSuffix p)),
             guess_mime ("OEBPS/Images/" ++
               ("img" ++ pad4 st.img_id_counter ++ lowerStr (pathSuffix p))))] }) := by
  unfold copy_image
  rw [h]
  rfl

theorem copy_image_none (cfg : Config) (env : Env) (st : BuildState)
    (p : String) (h : rejectImage cfg env p = true) :
    copy_image cfg env st p =
      (none, { st with diagnostics := st.diagnostics ++ [skipDiagnostic env p] }) := by
  unfold copy_image
  rw [h]
  rfl

theorem write_text_page_effects (cfg : Config) (st : BuildState)
    (frag : List Node) (t : String) :
    (write_text_page cfg st frag t).img_manifest = st.img_manifest ∧
    (write_text_page cfg st frag t).copied_images = st.copied_images ∧
    (write_text_page cfg st frag t).img_id_counter = st.img_id_counter ∧
    imagePageCount (write_text_page cfg st frag t) = imagePageCount st ∧
    (write_text_page cfg st frag t).images_dir = st.images_dir := by
  unfold write_text_page
  split
  · exact ⟨rfl, rfl, rfl, rfl, rfl⟩
  · split
    · exact ⟨rfl, rfl, rfl, rfl, rfl⟩
    · refine ⟨rfl, rfl, rfl, ?_, rfl⟩
      unfold imagePageCount
      simp [List.countP_append, PageContent.isImagePage]

theorem flush_text_effects (cfg : Config) (st : BuildState)
    (pending : List Node) (bt : String) :
    (flush_text cfg st pending bt).1.img_manifest = st.img_manifest ∧
    (flush_text cfg st pending bt).1.copied_images = st.copied_images ∧
    (flush_text cfg st pending bt).1.img_id_counter = st.img_id_counter ∧
    imagePageCount (flush_text cfg st pending bt).1 = imagePageCount st ∧
    (flush_text cfg st pending bt).1.images_dir = st.images_dir := by
  unfold flush_text
  split
  · exact write_text_page_effects cfg st _ bt
  · exact ⟨rfl, rfl, rfl, rfl, rfl⟩

theorem write_image_page_effects (st : BuildState) (n a : String) :
    (write_image_page st n a).img_manifest = st.img_manifest ∧
    (write_image_page st n a).copied_images = st.copied_images ∧
    imagePageCount (write_image_page st n a) = imagePageCount st + 1 ∧
    (write_image_page st n a).images_dir = st.images_dir := by
  refine ⟨rfl, rfl, ?_, rfl⟩
  unfold write_image_page imagePageCount
  simp [List.countP_append, PageContent.isImagePage]

theorem lookupCopied_append_self (l : List (String × String)) (p v : String)
    (h : lookupCopied l p = none) :
    lookupCopied (l ++ [(p, v)]) p = some v := by
  induction l with
  | nil => simp [lookupCopied]
  | cons kv rest ih =>
      cases kv with
      | mk k w =>
          rw [List.cons_append]
          by_cases hk : k = p
          · unfold lookupCopied at h
            rw [if_pos hk] at h
            cases h
          · show (if k = p then some w else lookupCopied (rest ++ [(p, v)]) p) = some v
            rw [if_neg hk]
            apply ih
            unfold lookupCopied at h
            rwa [if_neg hk] at h

/-- C2, evaluated at the failing input: in the scenario run on
`<p>intro</p><img src="x.png" alt="pic"/><p>outro</p>` (10x10 image, 2x2
thresholds) the pages are [text, image, text] in order, but the first
flushed text-page contains the text `intro` twice, not exactly once: the
traversal (`body.descendants`) visits a buffered node's subtree again,
so both the `<p>` element and its child string are buffered and kept. -/
theorem buffered_text_duplicated_at_scenario :
    (exRunState.text_dir.map fun e => PageContent.isImagePage e.2)
        = [false, true, false] ∧
    (exRunState.text_dir.map fun e => PageContent.textOccurrences "intro" e.2)
        = [2, 0, 0] ∧
    (exRunState.text_dir.map fun e => PageContent.textOccurrences "outro" e.2)
        = [0, 0, 2] :=
  ⟨rfl, rfl, rfl⟩

/-- C3 counterexample: with `x.png` at 1x1 and thresholds 2x2 the run
produces two text-pages, not the single merged text-page the claim
states, because the traversal flushes the pending buffer on encountering
the `img` node before its resolution/acceptance is checked. -/
theorem rejected_image_flush_counterexample :
    exRunState1.page_manifest.map (fun p => p.1)
        = ["textpage0001", "textpage0002"] ∧
    exRunState1.page_manifest.length ≠ 1 :=
  ⟨rfl, by decide⟩

/-- C3 amended: a rejected image contributes no page and no asset (the
image manifest, the image area and the deduplication map all stay empty,
and one skip diagnostic is emitted), but encountering the image node
still flushes the pending buffer before resolution/acceptance, so intro
and outro are emitted as two separate text-pages rather than one. -/
theorem rejected_image_no_asset_two_text_pages :
    exRunState1.img_manifest = [] ∧
    exRunState1.images_dir = [] ∧
    exRunState1.copied_images = [] ∧
    exRunState1.diagnostics
        = ["    [skip] Platzhalter-Bild ignoriert (1x1): x.png"] ∧
    (exRunState1.text_dir.map fun e => PageContent.isImagePage e.2)
        = [false, false] ∧
    exRunState1.page_manifest.map (fun p => p.1)
        = ["textpage0001", "textpage0002"] :=
  ⟨rfl, rfl, rfl, rfl, rfl, rfl⟩

/-- C4 counterexample: in the archive written for a build tree containing
`OEBPS/content.opf`, the second entry is stored without compression,
refuting the claim that every non-first entry is stored with standard
(deflate) compression. -/
theorem zip_other_entries_not_deflated_counterexample :
    (writeEpubZip ["OEBPS/content.opf"]).get? 1
        = some { name := "OEBPS/content.opf", compress := CompressType.stored } ∧
    CompressType.stored ≠ CompressType.deflated :=
  ⟨rfl, by decide⟩

/-- C4 amended: the first archive entry is always the fixed `mimetype`
sentinel stored without compression, and every other entry is likewise
stored without compression, because the archive is opened with the
default `ZIP_STORED` compression and `write` inherits it. -/
theorem zip_first_mimetype_all_stored (files : List String) :
    (writeEpubZip files).head?
        = some { name := "mimetype", compress := CompressType.stored } ∧
    ((writeEpubZip files).all fun e => e.compress == CompressType.stored) = true := by
  refine ⟨rfl, ?_⟩
  unfold writeEpubZip
  simp only [List.all_eq_true, List.mem_cons, List.mem_map]
  rintro e (rfl | ⟨r, hr, rfl⟩) <;> rfl

/-- C5: the book identifier reuses the source's first non-empty
`dc:identifier` verbatim when one exists and is the fresh random urn
otherwise, and the value written into the package document's canonical
identifier field always equals the value written into the navigation
document's `dtb:uid` field. -/
theorem book_identifier_consistent
    (md_dc md_meta : List (String × String)) (freshUuid : String)
    (css : List String) (st : BuildState) :
    (assemble_output md_dc md_meta freshUuid css st).opf.canonical_identifier
        = (assemble_output md_dc md_meta freshUuid css st).ncx.dtb_uid ∧
    (∀ v, existing_identifier md_dc = some v →
      (assemble_output md_dc md_meta freshUuid css st).opf.canonical_identifier = v) ∧
    (existing_identifier md_dc = none →
      (assemble_output md_dc md_meta freshUuid css st).opf.canonical_identifier
        = "urn:uuid:" ++ freshUuid) := by
  refine ⟨rfl, ?_, ?_⟩
  · intro v hv
    show bookUid md_dc freshUuid = v
    unfold bookUid
    rw [hv]
  · intro hn
    show bookUid md_dc freshUuid = "urn:uuid:" ++ freshUuid
    unfold bookUid
    rw [hn]

/-- Witness for C5: a source with an existing identifier reuses it in
both documents; one without gets the urn. -/
theorem book_identifier_consistent_witness :
    (assemble_output [("title", "T"), ("identifier", "urn:isbn:123")] [] "u" []
        initBuildState).opf.canonical_identifier = "urn:isbn:123" ∧
    (assemble_output [("title", "T")] [] "u" []
        initBuildState).opf.canonical_identifier = "urn:uuid:" ++ "u" :=
  ⟨(book_identifier_consistent [("title", "T"), ("identifier", "urn:isbn:123")]
      [] "u" [] initBuildState).2.1 "urn:isbn:123" rfl,
   (book_identifier_consistent [("title", "T")] [] "u" [] initBuildState).2.2 rfl⟩

/-- C8: the conversion fails with the empty-result error exactly when the
final state after processing every candidate document has an empty page
manifest (no image-page and no text-page produced at all); whenever at
least one page exists the conversion returns the final state and no such
failure is raised. -/
theorem empty_result_iff_no_pages (cfg : Config) (env : Env) (opfDir : String)
    (docs : List Doc) :
    (build_new_epub cfg env opfDir docs
        = Except.error "Keine Seiten entstanden – weder Bilder noch Text gefunden."
      ↔ (docs.foldl (processDoc cfg env opfDir) initBuildState).page_manifest = []) ∧
    ((docs.foldl (processDoc cfg env opfDir) initBuildState).page_manifest ≠ [] →
      build_new_epub cfg env opfDir docs
        = Except.ok (docs.foldl (processDoc cfg env opfDir) initBuildState)) := by
  have hb : build_new_epub cfg env opfDir docs =
      (if (docs.foldl (processDoc cfg env opfDir) initBuildState).page_manifest.isEmpty
       then Except.error "Keine Seiten entstanden – weder Bilder noch Text gefunden."
       else Except.ok (docs.foldl (processDoc cfg env opfDir) initBuildState)) := rfl
  rw [hb]
  cases hl : (docs.foldl (processDoc cfg env opfDir) initBuildState).page_manifest with
  | nil =>
      constructor
      · simp [hl, List.isEmpty]
      · intro hne
        exact absurd rfl hne
  | cons x rest =>
      constructor
      · simp [hl, List.isEmpty]
      · intro _
        simp [hl, List.isEmpty]

/-- Witness for C8's success direction on the concrete scenario run. -/
theorem empty_result_iff_no_pages_witness :
    build_new_epub exCfg exEnv10 "OEBPS" [exDoc]
      = Except.ok ([exDoc].foldl (processDoc exCfg exEnv10 "OEBPS") initBuildState) :=
  (empty_result_iff_no_pages exCfg exEnv10 "OEBPS" [exDoc]).2 (by decide)

/-- C7: the copy step rejects exactly when the pixel dimensions are
obtainable and either one is below the configured minimum (and then
appends one skip diagnostic); an image whose dimensions are unobtainable
is accepted with the size check skipped; and every accepted image is
copied byte-for-byte into the asset area under the sequential name
`img{counter:04d}` with its original extension lower-cased. -/
theorem copy_image_accept_reject_contract (cfg : Config) (env : Env)
    (st : BuildState) (p : String) :
    ((copy_image cfg env st p).1 = none ↔
      ∃ w h, env.dims p = some (w, h) ∧ (w < cfg.min_w ∨ h < cfg.min_h)) ∧
    (env.dims p = none → (copy_image cfg env st p).1 ≠ none) ∧
    ((copy_image cfg env st p).1 = none →
      (copy_image cfg env st p).2.diagnostics
        = st.diagnostics ++ [skipDiagnostic env p]) ∧
    (∀ name st', copy_image cfg env st p = (some name, st') →
      name = "img" ++ pad4 st.img_id_counter ++ lowerStr (pathSuffix p) ∧
      st'.images_dir = st.images_dir ++ [(name, env.readBytes p)]) := by
  refine ⟨?_, ?_, ?_, ?_⟩
  · rw [copy_image_fst_none_iff]
    exact rejectImage_iff cfg env p
  · intro hd hnone
    have hrej : rejectImage cfg env p = true :=
      (copy_image_fst_none_iff cfg env st p).mp hnone
    rw [rejectImage_iff] at hrej
    obtain ⟨w, h, hwh, _⟩ := hrej
    rw [hd] at hwh
    cases hwh
  · intro hnone
    have hrej : rejectImage cfg env p = true :=
      (copy_image_fst_none_iff cfg env st p).mp hnone
    rw [copy_image_none cfg env st p hrej]
  · intro name st' heq
    by_cases hrej : rejectImage cfg env p = true
    · rw [copy_image_none cfg env st p hrej] at heq
      cases heq
    · have hf : rejectImage cfg env p = false := by
        cases hb : rejectImage cfg env p
        · rfl
        · exact absurd hb hrej
      rw [copy_image_some cfg env st p hf] at heq
      injection heq with h1 h2
      injection h1 with h1
      subst h2
      refine ⟨h1.symm, ?_⟩
      rw [← h1]

/-- Witness for C7: an undecodable image (here with an upper-case
extension) is accepted and its bytes land verbatim in the asset area
under the lower-cased extension. -/
theorem copy_image_accept_reject_contract_witness :
    exEnv10.dims "OEBPS/y.GIF" = none ∧
    (copy_image exCfg exEnv10 initBuildState "OEBPS/y.GIF").1 ≠ none ∧
    (copy_image exCfg exEnv10 initBuildState "OEBPS/y.GIF").2.images_dir
      = [("img0001.gif", [137, 80, 78, 71])] := by
  have h := copy_image_accept_reject_contract exCfg exEnv10 initBuildState "OEBPS/y.GIF"
  refine ⟨rfl, h.2.1 rfl, ?_⟩
  have h4 := h.2.2.2 "img0001.gif"
    (copy_image exCfg exEnv10 initBuildState "OEBPS/y.GIF").2 (by rfl)
  rw [h4.2]
  rfl

/-- C10: for every accepted image the copied file's name embeds the
counter value current at copy time, zero-padded (`img{n:04d}.ext`),
while the manifest id recorded for the very same asset embeds the
already-incremented counter (`img{n+1}`), so the number in the file name
and the number in the manifest id differ by exactly one. -/
theorem img_name_manifest_id_off_by_one (cfg : Config) (env : Env)
    (st : BuildState) (p name : String) (st' : BuildState)
    (h : copy_image cfg env st p = (some name, st')) :
    ∃ n, n = st.img_id_counter ∧
      name = "img" ++ pad4 n ++ lowerStr (pathSuffix p) ∧
      st'.img_manifest = st.img_manifest ++
        [("img" ++ toString (n + 1), "Images/" ++ name,
          guess_mime ("OEBPS/Images/" ++ name))] ∧
      (n + 1) - n = 1 := by
  by_cases hrej : rejectImage cfg env p = true
  · rw [copy_image_none cfg env st p hrej] at h
    cases h
  · have hf : rejectImage cfg env p = false := by
      cases hb : rejectImage cfg env p
      · rfl
      · exact absurd hb hrej
    rw [copy_image_some cfg env st p hf] at h
    injection h with h1 h2
    injection h1 with h1
    subst h2
    refine ⟨st.img_id_counter, rfl, h1.symm, ?_, by omega⟩
    rw [← h1]

/-- Witness for C10: copying the 10x10 image at counter 1 produces the
file name `img0001.png` but the manifest id `img2`. -/
theorem img_name_manifest_id_off_by_one_witness :
    (copy_image exCfg exEnv10 initBuildState "OEBPS/x.png").2.img_manifest
      = [("img2", "Images/img0001.png", "image/png")] := by
  obtain ⟨n, hn, hname, hman, _⟩ := img_name_manifest_id_off_by_one exCfg exEnv10
    initBuildState "OEBPS/x.png" "img0001.png"
    (copy_image exCfg exEnv10 initBuildState "OEBPS/x.png").2 (by rfl)
  rw [hman]
  subst hn
  rfl

/-- C9 counterexample: with spine `[a.xml, b.xhtml]` where both entries
carry markup media type, the code selects only `b.xhtml` — candidate
selection goes by the href's file extension, not by media type as the
claim states. -/
theorem candidates_by_media_type_counterexample :
    html_candidates ["a.xml", "b.xhtml"] c9items = ["b.xhtml"] ∧
    html_candidates_by_media_type ["a.xml", "b.xhtml"] c9items
        = ["a.xml", "b.xhtml"] ∧
    (["b.xhtml"] : List String) ≠ ["a.xml", "b.xhtml"] :=
  ⟨rfl, rfl, by decide⟩

/-- C9 amended: the segmentation inputs are exactly the spine hrefs whose
lower-cased value ends in `.xhtml`/`.html`/`.htm`, kept in spine order
(the selection is a sublist of the spine); only when no spine href
qualifies is the fallback used: every manifest item of markup media
type, in manifest iteration order. -/
theorem candidates_by_extension (spine_hrefs : List String)
    (items : List (String × ManifestItem)) :
    ((spine_hrefs.filter fun h => h ≠ "" && hasHtmlExt h) ≠ [] →
      html_candidates spine_hrefs items
          = spine_hrefs.filter (fun h => h ≠ "" && hasHtmlExt h) ∧
      List.Sublist (html_candidates spine_hrefs items) spine_hrefs) ∧
    ((spine_hrefs.filter fun h => h ≠ "" && hasHtmlExt h) = [] →
      html_candidates spine_hrefs items
          = (items.filter fun it =>
              it.2.media_type = "application/xhtml+xml"
                || it.2.media_type = "text/html").map fun it => it.1) := by
  cases hl : spine_hrefs.filter (fun h => h ≠ "" && hasHtmlExt h) with
  | nil =>
      constructor
      · intro hne
        exact absurd rfl hne
      · intro _
        unfold html_candidates
        rw [hl]
        rfl
  | cons a tl =>
      constructor
      · intro _
        have h1 : html_candidates spine_hrefs items = a :: tl := by
          unfold html_candidates
          rw [hl]
          rfl
        refine ⟨h1, ?_⟩
        rw [h1, ← hl]
        exact List.filter_sublist _
      · intro he
        cases he

/-- Witness for C9's amended main branch on a one-entry spine. -/
theorem candidates_by_extension_witness :
    html_candidates ["b.xhtml"] [] = ["b.xhtml"] ∧
    List.Sublist (html_candidates ["b.xhtml"] []) ["b.xhtml"] :=
  (candidates_by_extension ["b.xhtml"] []).1 (by decide)

theorem write_image_page_img_manifest (st : BuildState) (n a : String) :
    (write_image_page st n a).img_manifest = st.img_manifest := rfl

theorem write_image_page_copied (st : BuildState) (n a : String) :
    (write_image_page st n a).copied_images = st.copied_images := rfl

theorem write_image_page_images_dir (st : BuildState) (n a : String) :
    (write_image_page st n a).images_dir = st.images_dir := rfl

theorem write_image_page_count (st : BuildState) (n a : String) :
    imagePageCount (write_image_page st n a) = imagePageCount st + 1 :=
  (write_image_page_effects st n a).2.2.1

theorem handleImg_first_occurrence (cfg : Config) (env : Env) (d o : String)
    (st : BuildState) (node : Node) (s p : String)
    (hs : Node.getAttr node "src" = some s) (hne : s ≠ "")
    (hr : resolveImageSrc env d o s = some p)
    (hnew : lookupCopied st.copied_images p = none)
    (hacc : rejectImage cfg env p = false) :
    (handleImg cfg env d o st node).img_manifest.length
        = st.img_manifest.length + 1 ∧
    imagePageCount (handleImg cfg env d o st node) = imagePageCount st + 1 ∧
    (handleImg cfg env d o st node).images_dir.length
        = st.images_dir.length + 1 ∧
    (handleImg cfg env d o st node).copied_images
        = st.copied_images ++
          [(p, "img" ++ pad4 st.img_id_counter ++ lowerStr (pathSuffix p))] := by
  have hc := copy_image_some cfg env st p hacc
  unfold handleImg
  simp only [hs]
  rw [if_neg hne]
  simp only [hr, hnew, hc]
  refine ⟨?_, ?_, ?_, ?_⟩
  · rw [write_image_page_img_manifest]
    simp [List.length_append]
  · rw [write_image_page_count]
    rfl
  · rw [write_image_page_images_dir]
    simp [List.length_append]
  · rw [write_image_page_copied]

theorem handleImg_reuse (cfg : Config) (env : Env) (d o : String)
    (st : BuildState) (node : Node) (s p v : String)
    (hs : Node.getAttr node "src" = some s) (hne : s ≠ "")
    (hr : resolveImageSrc env d o s = some p)
    (hfound : lookupCopied st.copied_images p = some v) :
    handleImg cfg env d o st node = write_image_page st v (altText node v) := by
  unfold handleImg
  simp only [hs, hr, hfound]
  rw [if_neg hne]

/-- C6: two image references handled in one traversal that resolve to
the same absolute path, which passes the placeholder filter and has not
been copied before, produce exactly one new copied asset — one
image-manifest entry, one file in the image area, one deduplication
entry — while still producing two image-pages. -/
theorem same_path_one_asset_two_pages (cfg : Config) (env : Env)
    (docDir opfDir bt : String) (st : BuildState) (pending : List Node)
    (n1 n2 : Node) (s1 s2 p : String)
    (hn1 : Node.nameOf n1 = some "img") (hn2 : Node.nameOf n2 = some "img")
    (hs1 : Node.getAttr n1 "src" = some s1) (hs2 : Node.getAttr n2 "src" = some s2)
    (hne1 : s1 ≠ "") (hne2 : s2 ≠ "")
    (hr1 : resolveImageSrc env docDir opfDir s1 = some p)
    (hr2 : resolveImageSrc env docDir opfDir s2 = some p)
    (hnew : lookupCopied st.copied_images p = none)
    (hacc : rejectImage cfg env p = false) :
    (processNode cfg env docDir opfDir bt
        (processNode cfg env docDir opfDir bt (st, pending) n1) n2).1.img_manifest.length
      = st.img_manifest.length + 1 ∧
    imagePageCount (processNode cfg env docDir opfDir bt
        (processNode cfg env docDir opfDir bt (st, pending) n1) n2).1
      = imagePageCount st + 2 ∧
    (processNode cfg env docDir opfDir bt
        (processNode cfg env docDir opfDir bt (st, pending) n1) n2).1.images_dir.length
      = st.images_dir.length + 1 ∧
    (processNode cfg env docDir opfDir bt
        (processNode cfg env docDir opfDir bt (st, pending) n1) n2).1.copied_images.length
      = st.copied_images.length + 1 := by
  have e1 : processNode cfg env docDir opfDir bt (st, pending) n1
      = (handleImg cfg env docDir opfDir (flush_text cfg st pending bt).1 n1,
         (flush_text cfg st pending bt).2) := by
    unfold processNode
    rw [if_pos hn1]
  obtain ⟨f1, f2, f3, f4, f5⟩ := flush_text_effects cfg st pending bt
  have hnewF : lookupCopied (flush_text cfg st pending bt).1.copied_images p = none := by
    rw [f2]
    exact hnew
  obtain ⟨a1, a2, a3, a4⟩ := handleImg_first_occurrence cfg env docDir opfDir
    (flush_text cfg st pending bt).1 n1 s1 p hs1 hne1 hr1 hnewF hacc
  rw [e1]
  have e2 : processNode cfg env docDir opfDir bt
      (handleImg cfg env docDir opfDir (flush_text cfg st pending bt).1 n1,
       (flush_text cfg st pending bt).2) n2
      = (handleImg cfg env docDir opfDir
          (flush_text cfg (handleImg cfg env docDir opfDir (flush_text cfg st pending bt).1 n1)
            (flush_text cfg st pending bt).2 bt).1 n2,
         (flush_text cfg (handleImg cfg env docDir opfDir (flush_text cfg st pending bt).1 n1)
            (flush_text cfg st pending bt).2 bt).2) := by
    unfold processNode
    rw [if_pos hn2]
  rw [e2]
  obtain ⟨g1, g2, g3, g4, g5⟩ := flush_text_effects cfg
    (handleImg cfg env docDir opfDir (flush_text cfg st pending bt).1 n1)
    (flush_text cfg st pending bt).2 bt
  have hfoundG : lookupCopied
      (flush_text cfg (handleImg cfg env docDir opfDir (flush_text cfg st pending bt).1 n1)
        (flush_text cfg st pending bt).2 bt).1.copied_images p
      = some ("img" ++ pad4 (flush_text cfg st pending bt).1.img_id_counter ++
          lowerStr (pathSuffix p)) := by
    rw [g2, a4]
    exact lookupCopied_append_self _ _ _ hnewF
  rw [handleImg_reuse cfg env docDir opfDir _ n2 s2 p _ hs2 hne2 hr2 hfoundG]
  refine ⟨?_, ?_, ?_, ?_⟩
  · rw [write_image_page_img_manifest, g1, a1, f1]
  · rw [write_image_page_count, g4, a2, f4]
  · rw [write_image_page_images_dir, g5, a3, f5]
  · rw [write_image_page_copied, g2, a4, f2]
    simp [List.length_append]

/-- Witness for C6: two occurrences of the same 10x10 image reference
from the empty initial state yield one asset and two image-pages. -/
theorem same_path_one_asset_two_pages_witness :
    (processNode exCfg exEnv10 "OEBPS" "OEBPS" "a"
        (processNode exCfg exEnv10 "OEBPS" "OEBPS" "a" (initBuildState, [])
          (Node.element "img" [("src", "x.png"), ("alt", "pic")] []))
        (Node.element "img" [("src", "x.png"), ("alt", "pic")] [])).1.img_manifest.length
      = initBuildState.img_manifest.length + 1 ∧
    imagePageCount (processNode exCfg exEnv10 "OEBPS" "OEBPS" "a"
        (processNode exCfg exEnv10 "OEBPS" "OEBPS" "a" (initBuildState, [])
          (Node.element "img" [("src", "x.png"), ("alt", "pic")] []))
        (Node.element "img" [("src", "x.png"), ("alt", "pic")] [])).1
      = imagePageCount initBuildState + 2 :=
  have h := same_path_one_asset_two_pages exCfg exEnv10 "OEBPS" "OEBPS" "a"
    initBuildState []
    (Node.element "img" [("src", "x.png"), ("alt", "pic")] [])
    (Node.element "img" [("src", "x.png"), ("alt", "pic")] [])
    "x.png" "x.png" "OEBPS/x.png"
    rfl rfl rfl rfl (by decide) (by decide) rfl rfl rfl rfl
  ⟨h.1, h.2.1⟩

end EpubSplit
